import Mathlib

/-!
Verification development for the LinkedIn profile scraper
(`src/scraper/{fetch_profile,parse_profile,login,config}.py`).

The Python modules are shallowly embedded: pure string manipulation becomes
functions on `String`/`List Char`; JSON values become the inductive `Json`;
the BeautifulSoup document is an abstract `Soup` environment (CSS selection
and JSON-LD script tags are supplied by the environment, exactly the data the
Python code reads from the external library); browser-driver interactions are
supplied as per-step outcomes (`Except PyExc _`), with Python's exception
class hierarchy and `try/except` dispatch modelled explicitly; the session
file store becomes an association list keyed by the hashed identity.
Delays are rationals (`ℚ`), standing for the Python floats.
-/

namespace Scraper

/-! ## Python string primitives (kernel-reducible forms) -/

/-- Python `needle in hay` substring test. -/
def strContains (hay needle : String) : Bool :=
  decide (needle.data <:+: hay.data)

/-- Python `str.lower()`. -/
def lowerStr (s : String) : String := ⟨s.data.map Char.toLower⟩

/-- Python `str.strip()`: drop whitespace from both ends. -/
def trimStr (s : String) : String :=
  ⟨((s.data.dropWhile Char.isWhitespace).reverse.dropWhile Char.isWhitespace).reverse⟩

/-- Python `s.split(c)` for a one-character separator. -/
def splitChar (c : Char) (s : String) : List String :=
  (s.data.splitOn c).map (fun l => ⟨l⟩)

/-! ## Python exception classes

Only the classes the scraper's `try/except` chains mention are modelled.
`subclassOf` mirrors the real hierarchies: selenium's `TimeoutException` and
`NoSuchElementException` derive `WebDriverException`; playwright's
`TimeoutError` does not; `json.JSONDecodeError` derives `ValueError`;
everything derives `Exception`. -/

inductive PyClass where
  | exc
  | webDriverExc
  | seleniumTimeoutExc
  | noSuchElementExc
  | playwrightTimeoutExc
  | valueErrorExc
  | attributeErrorExc
  | typeErrorExc
deriving DecidableEq, Repr

/-- Python `isinstance`-style subclass test for the modelled classes. -/
def subclassOf (c d : PyClass) : Bool :=
  match c, d with
  | _, .exc => true
  | .seleniumTimeoutExc, .webDriverExc => true
  | .noSuchElementExc, .webDriverExc => true
  | c, d => c == d

/-- A raised Python exception: its class and its `str(e)` message. -/
structure PyExc where
  cls : PyClass
  msg : String
deriving DecidableEq, Repr

/-! ## BlockDetector (`SeleniumFetcher._is_blocked` / `PlaywrightFetcher._is_blocked`)

Both fetchers carry the identical method; it is embedded once. -/

/-- Source list `blocked_indicators` from `_is_blocked`. -/
def blockedIndicators : List String :=
  ["authwall-join", "public_profile_contextual-sign-in", "Join to view"]

/-- Marker test the fetchers use for a person-typed structured-data block:
`'application/ld+json' in html and '"@type":"Person"' in html`. -/
def hasPersonLd (html : String) : Bool :=
  strContains html "application/ld+json" && strContains html "\"@type\":\"Person\""

/-- Embedding of `_is_blocked` (`fetch_profile.py`, identical at both sites). -/
def isBlocked (html : String) : Bool :=
  if hasPersonLd html then false
  else blockedIndicators.any (fun ind => strContains (lowerStr html) (lowerStr ind))

/-- The spec's `BlockDetector.classify` view of `_is_blocked`. -/
inductive BlockClass where
  | Ok
  | Blocked
deriving DecidableEq, Repr

/-- Classification of fetched content: `Blocked` iff `_is_blocked` returns true. -/
def classify (html : String) : BlockClass :=
  if isBlocked html then .Blocked else .Ok

/-! ## RateLimiter.backoff (`fetch_profile.py` lines 89-115)

The float arithmetic is embedded over `ℚ`; `rand` stands for the
`random.random()` draw in `[0, 1]`. -/

/-- Rate-limit configuration (`RateLimitConfig`, `config.py`). -/
structure RateLimitCfg where
  request_delay : ℚ
  max_retries : ℕ
  retry_backoff_factor : ℚ
  retry_jitter : ℚ
  max_retry_delay : ℚ
deriving DecidableEq, Repr

/-- The constraints `RateLimitConfig.__post_init__` enforces. -/
def RateLimitCfg.valid (cfg : RateLimitCfg) : Prop :=
  0 ≤ cfg.request_delay ∧ 1 ≤ cfg.retry_backoff_factor ∧
    0 ≤ cfg.retry_jitter ∧ cfg.retry_jitter ≤ 1 ∧ 0 < cfg.max_retry_delay

/-- Default `RateLimitConfig` values from `config.py`. -/
def defaultRateCfg : RateLimitCfg :=
  { request_delay := 2, max_retries := 3, retry_backoff_factor := 2,
    retry_jitter := 1/2, max_retry_delay := 60 }

/-- Embedding of `RateLimiter.backoff`: exponential delay, symmetric jitter
from the draw `rand`, then a cap at `max_retry_delay`. -/
def backoff (cfg : RateLimitCfg) (retry_count : ℕ) (rand : ℚ) : ℚ :=
  let base_delay := cfg.request_delay
  let delay := base_delay * cfg.retry_backoff_factor ^ retry_count
  let jitter := delay * cfg.retry_jitter * (2 * rand - 1)
  min (delay + jitter) cfg.max_retry_delay

/-! ## JSON values (`json.loads` results) and Python dynamics over them -/

/-- A parsed JSON value. Python dicts are association lists (first binding
wins on lookup); JSON numbers are modelled as integers, which covers the
schema.org date fields the parser coerces. -/
inductive Json where
  | null
  | bool (b : Bool)
  | num (n : Int)
  | str (s : String)
  | arr (xs : List Json)
  | obj (kvs : List (String × Json))

/-- Python truthiness of a JSON-shaped value. -/
def Json.truthy : Json → Bool
  | .null => false
  | .bool b => b
  | .num n => n != 0
  | .str s => s != ""
  | .arr xs => !xs.isEmpty
  | .obj kvs => !kvs.isEmpty

/-- Python `d.get(k, dflt)` on a dict. -/
def jget (kvs : List (String × Json)) (k : String) (dflt : Json) : Json :=
  match kvs.lookup k with
  | some v => v
  | none => dflt

/-- A single-quote character, used by the Python `repr` of strings. -/
def sq : String := String.singleton (Char.ofNat 39)

mutual

/-- Python `repr` of a JSON-shaped value (string escaping is not modelled;
this only feeds `str()` fallback branches that no theorem depends on). -/
def pyRepr : Json → String
  | .null => "None"
  | .bool b => if b then "True" else "False"
  | .num n => toString n
  | .str s => sq ++ s ++ sq
  | .arr xs => "[" ++ String.intercalate ", " (pyReprList xs) ++ "]"
  | .obj kvs => "\x7b" ++ String.intercalate ", " (pyReprObj kvs) ++ "\x7d"

/-- Helper for `pyRepr` over array elements. -/
def pyReprList : List Json → List String
  | [] => []
  | x :: xs => pyRepr x :: pyReprList xs

/-- Helper for `pyRepr` over dict entries. -/
def pyReprObj : List (String × Json) → List String
  | [] => []
  | (k, v) :: kvs => (sq ++ k ++ sq ++ ": " ++ pyRepr v) :: pyReprObj kvs

end

/-- Python `str()` of a JSON-shaped value. -/
def pyStr : Json → String
  | .str s => s
  | j => pyRepr j

/-! ## Experience and ProfileData (`parse_profile.py` lines 18-98)

Dataclass construction runs `__post_init__`; a field holding a truthy
non-string raises `AttributeError` at the `.strip()` call, so the
constructors return `Except PyExc _`. -/

/-- A work-experience entry (`Experience` dataclass, after `__post_init__`). -/
structure Experience where
  title : String
  company : String
  start_date : Option String := none
  end_date : Option String := none
  description : String := ""
deriving DecidableEq, Repr

/-- A parsed profile (`ProfileData` dataclass, after `__post_init__`);
`scraped_at` is wall-clock time and is not modelled. -/
structure ProfileData where
  name : String
  headline : String := ""
  location : String := ""
  about : String := ""
  experiences : List Experience := []
  url : String := ""
deriving DecidableEq, Repr

/-- Python `self.f = self.f.strip() if self.f else ""` on a field that may
hold any value: truthy strings are stripped, truthy non-strings raise
`AttributeError`, falsy values become `""`. -/
def stripIfTruthy (j : Json) : Except PyExc String :=
  if j.truthy then
    match j with
    | .str s => .ok (trimStr s)
    | _ => .error ⟨.attributeErrorExc, "strip"⟩
  else .ok ""

/-- Python `if self.d: self.d = self.d.strip()` on an optional date field:
truthy strings are stripped, truthy non-strings raise, falsy values are left
as they are (only `None` and `""` reach this from the two call sites). -/
def stripOptField (d : Option Json) : Except PyExc (Option String) :=
  match d with
  | none => .ok none
  | some v =>
    if v.truthy then
      match v with
      | .str s => .ok (some (trimStr s))
      | _ => .error ⟨.attributeErrorExc, "strip"⟩
    else
      match v with
      | .str s => .ok (some s)
      | _ => .ok none

/-- Embedding of `Experience(...)` construction with `__post_init__`
(`parse_profile.py` lines 28-38): every text field is trimmed; nothing is
rejected. -/
def Experience.make (title company : Json) (start_date end_date : Option Json)
    (description : Json) : Except PyExc Experience := do
  let t ← stripIfTruthy title
  let c ← stripIfTruthy company
  let d ← stripIfTruthy description
  let s ← stripOptField start_date
  let e ← stripOptField end_date
  .ok { title := t, company := c, start_date := s, end_date := e, description := d }

/-- Embedding of `ProfileData(...)` construction with `__post_init__`
(`parse_profile.py` lines 63-74): fields are trimmed, then an empty `name`
raises `ValueError`. -/
def ProfileData.make (name headline location about : Json)
    (experiences : List Experience) (url : Json) : Except PyExc ProfileData := do
  let n ← stripIfTruthy name
  let h ← stripIfTruthy headline
  let l ← stripIfTruthy location
  let a ← stripIfTruthy about
  let u ← stripIfTruthy url
  if n = "" then .error ⟨.valueErrorExc, "Profile name is required"⟩
  else .ok { name := n, headline := h, location := l, about := a,
             experiences := experiences, url := u }

/-! ## Tier 1: JSON-LD extraction (`ProfileParser._extract_json_ld`, lines 112-153)

A script tag is its `script.string` together with the `json.loads` outcome:
`none` models a script with no string; `some (.error _)` a
`JSONDecodeError`; `some (.ok j)` a parsed value. Any other exception while
processing one script (`item.get` on a non-dict, iterating a non-list
`@graph`, subscripting a non-dict) is caught by the source's
`except Exception: continue`, so such scripts contribute nothing. -/

abbrev ScriptTag := Option (Except Unit Json)

/-- Python `item.get('@type') == 'Person'` on a dict. -/
def isPersonTyped (kvs : List (String × Json)) : Bool :=
  match kvs.lookup "@type" with
  | some (.str s) => s == "Person"
  | _ => false

/-- Scan of `for item in data['@graph']`: the first dict declared `Person`
wins; a non-dict item raises inside the loop, which skips the whole script. -/
def graphScan : List Json → Option (List (String × Json))
  | [] => none
  | .obj kvs :: rest => if isPersonTyped kvs then some kvs else graphScan rest
  | _ :: _ => none

/-- Person record yielded by one parsed script value: via `@graph` when that
key is present (non-list values raise and skip the script), else the value
itself when it is a dict declared `Person`. -/
def personFromScript : Json → Option (List (String × Json))
  | .obj kvs =>
    match kvs.lookup "@graph" with
    | some (.arr items) => graphScan items
    | some _ => none
    | none => if isPersonTyped kvs then some kvs else none
  | _ => none

/-- Embedding of `_extract_json_ld`: first person record over the script
tags, in document order. -/
def extractJsonLd : List ScriptTag → Option (List (String × Json))
  | [] => none
  | none :: rest => extractJsonLd rest
  | some (.error _) :: rest => extractJsonLd rest
  | some (.ok d) :: rest =>
    match personFromScript d with
    | some kvs => some kvs
    | none => extractJsonLd rest

/-! ## Tier 1: field mapping (`ProfileParser._parse_from_json_ld`, lines 155-254) -/

/-- List of strings from a JSON array, or `none` if some element is not a
string (Python `str.join` raises `TypeError` there). -/
def asStrList : List Json → Option (List String)
  | [] => some []
  | .str s :: rest => (asStrList rest).map (fun l => s :: l)
  | _ :: _ => none

/-- Python `', '.join(job_titles)` on a list of JSON values. -/
def joinComma (xs : List Json) : Except PyExc String :=
  match asStrList xs with
  | some ss => .ok (String.intercalate ", " ss)
  | none => .error ⟨.typeErrorExc, "sequence item: expected str instance"⟩

/-- Python `if isinstance(d, int): d = str(d)` (`bool` is an `int` in
Python, so `True`/`False` also convert). -/
def coerceIntDate (j : Json) : Json :=
  match j with
  | .num n => .str (toString n)
  | .bool b => .str (if b then "True" else "False")
  | _ => j

/-- One iteration of the `worksFor` loop: non-dict entries and entries with
a falsy organization name are skipped; otherwise an `Experience` is built
with the title heuristic (first comma segment of the headline, else the
literal `"Position"`). -/
def expFromWork (headline : String) (work : Json) : Except PyExc (Option Experience) :=
  match work with
  | .obj wk =>
    let company := jget wk "name" (.str "")
    if !company.truthy then .ok none
    else
      let sd := match jget wk "member" (.obj []) with
        | .obj m => coerceIntDate (jget m "startDate" (.str ""))
        | _ => .str ""
      let ed := match jget wk "member" (.obj []) with
        | .obj m => coerceIntDate (jget m "endDate" (.str ""))
        | _ => .str ""
      let title := if headline != "" then trimStr ((splitChar ',' headline).headD "")
                   else "Position"
      match Experience.make (.str title) company
          (if sd.truthy then some sd else none)
          (if ed.truthy then some ed else none) (.str "") with
      | .ok e => .ok (some e)
      | .error ex => .error ex
  | _ => .ok none

/-- The `worksFor` loop, in order; the first raising entry aborts the whole
tier-1 parse (caught by the caller, which then falls back to tier 2). -/
def buildExperiences (headline : String) : List Json → Except PyExc (List Experience)
  | [] => .ok []
  | w :: rest => do
    let e? ← expFromWork headline w
    let es ← buildExperiences headline rest
    match e? with
    | some e => .ok (e :: es)
    | none => .ok es

/-- Embedding of `_parse_from_json_ld` on the person dict found by
`_extract_json_ld`. -/
def parseFromJsonLd (data : List (String × Json)) (url : String) :
    Except PyExc ProfileData := do
  let name := jget data "name" (.str "")
  if !name.truthy then
    .error ⟨.valueErrorExc, "Profile name not found in JSON-LD data"⟩
  else do
    let headline ←
      (match jget data "jobTitle" (.arr []) with
       | .arr xs => if xs.isEmpty then Except.ok "" else joinComma xs
       | jt => .ok (if jt.truthy then pyStr jt else ""))
    let location : Json :=
      match jget data "address" (.obj []) with
      | .obj akvs =>
        let locality := jget akvs "addressLocality" (.str "")
        let country := jget akvs "addressCountry" (.str "")
        if locality.truthy && country.truthy then
          .str (pyStr locality ++ ", " ++ pyStr country)
        else if locality.truthy then locality
        else if country.truthy then country
        else .str ""
      | _ => .str ""
    let about := jget data "description" (.str "")
    let works : List Json :=
      match jget data "worksFor" (.arr []) with
      | .arr xs => xs
      | w => if w.truthy then [w] else []
    let exps ← buildExperiences headline works
    ProfileData.make name (.str headline) location about exps (.str url)

/-! ## Tier 2: the BeautifulSoup environment and selector extraction
(`ProfileParser._extract_*`, lines 355-521)

An `Element` models a tag as the source reads it: its Python truthiness
(bs4 tags are falsy when they have no contents), its `get_text(strip=True)`
result, and `select_one` scoped under it. A `Soup` additionally carries the
document-level selections, the JSON-LD script tags and the `soup.find()`
non-emptiness check. -/

inductive Element where
  | mk : Bool → String → (String → Option Element) → Element

/-- Python truthiness of the tag. -/
def Element.truthy : Element → Bool
  | .mk b _ _ => b

/-- Result of `get_text(strip=True)` on the tag. -/
def Element.text : Element → String
  | .mk _ t _ => t

/-- Result of `select_one` scoped under the tag. -/
def Element.sub : Element → String → Option Element
  | .mk _ _ f => f

/-- The parsed document as the source reads it. -/
structure Soup where
  ldScripts : List ScriptTag
  findAny : Bool
  selectOne : String → Option Element
  selectAll : String → List Element

/-- Ordered name selector list from `_extract_name`. -/
def nameSelectors : List String :=
  ["h1.profile-name", "h1[class*=\"profile-name\"]", "h1[class*=\"name\"]",
   ".profile-header h1", "h1"]

/-- First selector hit satisfying `element and element.get_text(strip=True)`. -/
def firstNameHit (soup : Soup) : List String → Option String
  | [] => none
  | sel :: rest =>
    match soup.selectOne sel with
    | some el => if el.truthy && el.text != "" then some el.text
                 else firstNameHit soup rest
    | none => firstNameHit soup rest

/-- Embedding of `_extract_name`: the required field raises `ValueError`
when no selector matches. -/
def extractName (soup : Soup) : Except PyExc String :=
  match firstNameHit soup nameSelectors with
  | some n => .ok n
  | none => .error ⟨.valueErrorExc, "Profile name not found in HTML"⟩

/-- Ordered headline selector list from `_extract_headline`. -/
def headlineSelectors : List String :=
  [".profile-headline", "div[class*=\"headline\"]", ".profile-header .headline"]

/-- Ordered location selector list from `_extract_location`. -/
def locationSelectors : List String :=
  [".profile-location", "div[class*=\"location\"]", ".profile-header .location"]

/-- Ordered about selector list from `_extract_about`. -/
def aboutSelectors : List String :=
  [".about-content", ".about-section .content",
   "section.about-section div[class*=\"content\"]"]

/-- First truthy selector hit (`if element: return element.get_text(...)`);
unlike the name, an empty text on a truthy element is returned as-is. -/
def firstTruthyText (soup : Soup) : List String → Option String
  | [] => none
  | sel :: rest =>
    match soup.selectOne sel with
    | some el => if el.truthy then some el.text else firstTruthyText soup rest
    | none => firstTruthyText soup rest

/-- Embedding of `_extract_headline`: defaults to `""`. -/
def extractHeadline (soup : Soup) : String :=
  (firstTruthyText soup headlineSelectors).getD ""

/-- Embedding of `_extract_location`: defaults to `""`. -/
def extractLocation (soup : Soup) : String :=
  (firstTruthyText soup locationSelectors).getD ""

/-- Embedding of `_extract_about`: defaults to `""`. -/
def extractAbout (soup : Soup) : String :=
  (firstTruthyText soup aboutSelectors).getD ""

/-- Optional sub-field of one experience item (`if elem: text`). -/
def optSubText (item : Element) (sel : String) : Option String :=
  match item.sub sel with
  | some el => if el.truthy then some el.text else none
  | none => none

/-- Embedding of `_parse_experience_item`: items missing (or with falsy)
title or company elements are skipped; dates and description are optional;
any constructor exception makes the item yield `None`. -/
def parseExperienceItem (item : Element) : Option Experience :=
  match item.sub ".experience-title, h3" with
  | none => none
  | some tEl =>
    if !tEl.truthy then none
    else match item.sub ".experience-company" with
      | none => none
      | some cEl =>
        if !cEl.truthy then none
        else
          let sd := optSubText item ".start-date"
          let ed := optSubText item ".end-date"
          let descr := (optSubText item ".experience-description").getD ""
          match Experience.make (.str tEl.text) (.str cEl.text)
              (sd.map Json.str) (ed.map Json.str) (.str descr) with
          | .ok e => some e
          | .error _ => none

/-- Embedding of `_extract_experiences`: every matched item independently,
skipping the ones `_parse_experience_item` rejects. -/
def extractExperiences (soup : Soup) : List Experience :=
  (soup.selectAll ".experience-item").filterMap parseExperienceItem

/-! ## ProfileParser.parse_html (lines 256-353) -/

/-- The selector-based fallback half of `parse_html`: the name is required
(its `ValueError` propagates); headline, location, about and experiences
degrade independently. -/
def tier2Parse (soup : Soup) (url : String) : Except PyExc ProfileData := do
  let name ← extractName soup
  let headline := extractHeadline soup
  let location := extractLocation soup
  let about := extractAbout soup
  let exps := extractExperiences soup
  ProfileData.make (.str name) (.str headline) (.str location) (.str about)
    exps (.str url)

/-- Embedding of `parse_html`: blank input and empty documents raise
`ValueError`; then JSON-LD extraction is tried first, with any tier-1 raise
caught and demoted to the selector fallback. -/
def parseHtml (html : String) (soup : Soup) (url : String) : Except PyExc ProfileData :=
  if html == "" || trimStr html == "" then
    .error ⟨.valueErrorExc, "Empty HTML content provided"⟩
  else if !soup.findAny then .error ⟨.valueErrorExc, "Invalid HTML structure"⟩
  else
    match extractJsonLd soup.ldScripts with
    | some person =>
      match parseFromJsonLd person url with
      | .ok prof => .ok prof
      | .error _ => tier2Parse soup url
    | none => tier2Parse soup url

/-! ## SeleniumFetcher.fetch / PlaywrightFetcher.fetch (`fetch_profile.py`)

One driver attempt is the combined outcome of `driver.get`, the body wait
and `page_source` (respectively `page.goto`/`page.content`): either the
rendered content or a raised exception. The `for retry in range(max_retries+1)`
loop is embedded with an explicit iteration budget (`fuel`), instantiated to
`max_retries + 1` at the entry point; the budget running out corresponds to
the loop falling through to the final `return`. Sleeps (`RateLimiter.wait`,
`backoff`) do not affect control flow and are not modelled. -/

/-- Result of a fetch (`FetchResult` dataclass). -/
structure FetchResult where
  url : String
  html : Option String := none
  success : Bool := false
  error : Option String := none
  error_type : Option String := none
  status_code : Option Int := none
  retry_count : ℕ := 0
  is_blocked : Bool := false
deriving DecidableEq, Repr

/-- The retry loop of `SeleniumFetcher.fetch` (lines 214-297) from a given
attempt index: blocked content retries while attempts remain;
`TimeoutException` and `WebDriverException` retry while attempts remain and
report `timeout`/`network` once exhausted; any other exception reports
`network` immediately; an exception no clause catches would propagate. -/
def seleniumFetchLoop (url : String) (driver : ℕ → Except PyExc String)
    (maxRetries : ℕ) : ℕ → ℕ → Except PyExc FetchResult
  | _, 0 =>
    .ok { url := url, success := false, error := some "Max retries exceeded",
          error_type := some "network", retry_count := maxRetries }
  | retry, fuel + 1 =>
    match driver retry with
    | .ok html =>
      if isBlocked html then
        if retry < maxRetries then
          seleniumFetchLoop url driver maxRetries (retry + 1) fuel
        else
          .ok { url := url, success := false,
                error := some "Access blocked or login required",
                error_type := some "blocked", is_blocked := true, retry_count := retry }
      else .ok { url := url, html := some html, success := true, retry_count := retry }
    | .error e =>
      if subclassOf e.cls .seleniumTimeoutExc then
        if maxRetries ≤ retry then
          .ok { url := url, success := false,
                error := some ("Timeout after " ++ toString maxRetries ++ " retries"),
                error_type := some "timeout", retry_count := retry }
        else seleniumFetchLoop url driver maxRetries (retry + 1) fuel
      else if subclassOf e.cls .webDriverExc then
        if maxRetries ≤ retry then
          .ok { url := url, success := false,
                error := some ("WebDriver error: " ++ e.msg),
                error_type := some "network", retry_count := retry }
        else seleniumFetchLoop url driver maxRetries (retry + 1) fuel
      else if subclassOf e.cls .exc then
        .ok { url := url, success := false,
              error := some ("Unexpected error: " ++ e.msg),
              error_type := some "network", retry_count := retry }
      else .error e

/-- Embedding of `SeleniumFetcher.fetch` (lines 199-297) including the
implicit `self.start()`: when no driver exists yet and startup raises, the
exception propagates to the caller (it happens before the `try`). -/
def seleniumFetch (driverStarted : Bool) (startOutcome : Option PyExc)
    (url : String) (driver : ℕ → Except PyExc String) (maxRetries : ℕ) :
    Except PyExc FetchResult :=
  if driverStarted then seleniumFetchLoop url driver maxRetries 0 (maxRetries + 1)
  else
    match startOutcome with
    | some e => .error e
    | none => seleniumFetchLoop url driver maxRetries 0 (maxRetries + 1)

/-- The retry loop of `PlaywrightFetcher.fetch` (lines 416-502): as the
Selenium loop, except that a Playwright attempt also yields an optional
status code and that every non-timeout exception is retried. -/
def playwrightFetchLoop (url : String) (driver : ℕ → Except PyExc (String × Option Int))
    (maxRetries : ℕ) : ℕ → ℕ → Except PyExc FetchResult
  | _, 0 =>
    .ok { url := url, success := false, error := some "Max retries exceeded",
          error_type := some "network", retry_count := maxRetries }
  | retry, fuel + 1 =>
    match driver retry with
    | .ok (html, status) =>
      if isBlocked html then
        if retry < maxRetries then
          playwrightFetchLoop url driver maxRetries (retry + 1) fuel
        else
          .ok { url := url, success := false,
                error := some "Access blocked or login required",
                error_type := some "blocked", is_blocked := true,
                status_code := status, retry_count := retry }
      else
        .ok { url := url, html := some html, success := true,
              status_code := status, retry_count := retry }
    | .error e =>
      if subclassOf e.cls .playwrightTimeoutExc then
        if maxRetries ≤ retry then
          .ok { url := url, success := false,
                error := some ("Timeout after " ++ toString maxRetries ++ " retries"),
                error_type := some "timeout", retry_count := retry }
        else playwrightFetchLoop url driver maxRetries (retry + 1) fuel
      else if subclassOf e.cls .exc then
        if maxRetries ≤ retry then
          .ok { url := url, success := false, error := some ("Error: " ++ e.msg),
                error_type := some "network", retry_count := retry }
        else playwrightFetchLoop url driver maxRetries (retry + 1) fuel
      else .error e

/-! ## SessionManager (`login.py` lines 51-142)

The session directory becomes an association list from file name to cookie
set; `hash` stands for the external `sha256(...).hexdigest()[:16]`. Each
operation takes a flag for the file-system failure its `try/except`
swallows. -/

/-- A stored cookie entry. -/
structure Cookie where
  name : String
  value : String
  domain : Option String := none
  path : Option String := none
  secure : Option Bool := none
deriving DecidableEq, Repr

/-- The session directory contents. -/
abbrev SessionStore := List (String × List Cookie)

/-- Embedding of `get_session_file`: file name from the hashed identity. -/
def sessionKey (hash : String → String) (email : String) : String :=
  "session_" ++ hash email ++ ".json"

/-- Embedding of `save_cookies`: write failures degrade to `false` without
mutating the store. -/
def saveCookies (hash : String → String) (writeFails : Bool) (st : SessionStore)
    (cookies : List Cookie) (email : String) : SessionStore × Bool :=
  if writeFails then (st, false)
  else ((sessionKey hash email, cookies) ::
          st.filter (fun p => !(p.1 == sessionKey hash email)), true)

/-- Embedding of `load_cookies`: `none` when the file is missing or any
read failure occurs. -/
def loadCookies (hash : String → String) (readFails : Bool) (st : SessionStore)
    (email : String) : Option (List Cookie) :=
  if readFails then none
  else st.lookup (sessionKey hash email)

/-- Embedding of `clear_session`: deletes when present, reports `true` also
on absence; unlink failures degrade to `false` without mutating the store. -/
def clearSession (hash : String → String) (removeFails : Bool) (st : SessionStore)
    (email : String) : SessionStore × Bool :=
  if removeFails then (st, false)
  else (st.filter (fun p => !(p.1 == sessionKey hash email)), true)

/-! ## SeleniumLoginHandler (`login.py` lines 145-382)

Driver interactions are supplied per step. Every helper
(`_load_session`, `_verify_login`) ends in `except Exception`, hence is
total; `_perform_login`'s body may raise, and its `except` chain is the
explicit dispatch in `performLoginE`. -/

/-- Authentication configuration (`AuthConfig`, `config.py`). -/
structure AuthCfg where
  enabled : Bool
  email : Option String := none
  password : Option String := none

/-- Python truthiness of an optional string. -/
def truthyOpt : Option String → Bool
  | some s => s != ""
  | none => false

/-- Driver outcomes `_verify_login` consumes: the feed navigation, the
current URL read, and the wait for the `nav.global-nav` bar (`none` means
the bar appeared). -/
structure VerifyB where
  navFeed : Option PyExc
  currentUrl : Except PyExc String
  navBarWait : Option PyExc

/-- Embedding of `_verify_login` (lines 234-267): any raised exception is
caught and yields `false`; logged-in means no login/authwall redirect and a
visible navigation bar. -/
def verifyLogin (b : VerifyB) : Bool :=
  match b.navFeed with
  | some _ => false
  | none =>
    match b.currentUrl with
    | .error _ => false
    | .ok url =>
      if strContains url "login" || strContains url "authwall" then false
      else
        match b.navBarWait with
        | none => true
        | some _ => false

/-- Driver outcome `_load_session` consumes beyond the store read: the
initial navigation (individual `add_cookie` failures are swallowed and do
not affect the result). -/
structure LoadSessB where
  navMain : Option PyExc

/-- Embedding of `_load_session` (lines 193-232): false on a missing/empty
cookie set or any navigation exception. -/
def loadSessionStep (hash : String → String) (readFails : Bool) (st : SessionStore)
    (email : String) (b : LoadSessB) : Bool :=
  match loadCookies hash readFails st email with
  | none => false
  | some [] => false
  | some (_ :: _) =>
    match b.navMain with
    | none => true
    | some _ => false

/-- Driver outcomes `_perform_login` consumes: login-page navigation, the
wait for the `#username` field, the credential fill/submit steps (collapsed:
each would propagate identically), the post-submit URL, the inline error
element lookup (`NoSuchElementException` when absent), the verification
step, and the cookie snapshot with the store-write flag. -/
structure PerformB where
  navLogin : Option PyExc
  formWait : Option PyExc
  credSteps : Option PyExc
  currentUrl : Except PyExc String
  inlineErr : Except PyExc String
  verify2 : VerifyB
  getCookies : Except PyExc (List Cookie)
  saveFails : Bool

/-- Login result (`LoginResult` dataclass). -/
structure LoginResult where
  success : Bool
  error : Option String := none
  session_saved : Bool := false
deriving DecidableEq, Repr

/-- Body of `_perform_login` (lines 276-358) before its `except` chain:
exceptions escape as `.error` for the chain to dispatch. -/
def performBodyE (hash : String → String) (cfg : AuthCfg) (st : SessionStore)
    (b : PerformB) : Except PyExc (LoginResult × SessionStore) :=
  match b.navLogin with
  | some e => .error e
  | none =>
    match b.formWait with
    | some e =>
      if subclassOf e.cls .seleniumTimeoutExc then
        .ok ({ success := false,
               error := some "Login form not found - page may have changed" }, st)
      else .error e
    | none =>
      match b.credSteps with
      | some e => .error e
      | none =>
        match b.currentUrl with
        | .error e => .error e
        | .ok url =>
          if strContains url "login" && !strContains url "checkpoint" then
            match b.inlineErr with
            | .ok txt =>
              .ok ({ success := false, error := some ("Login failed: " ++ txt) }, st)
            | .error e =>
              if subclassOf e.cls .noSuchElementExc then
                .ok ({ success := false,
                       error := some "Login failed - invalid credentials or unknown error" },
                     st)
              else .error e
          else if strContains url "checkpoint" then
            .ok ({ success := false,
                   error := some "Security checkpoint - manual verification required" }, st)
          else if !verifyLogin b.verify2 then
            .ok ({ success := false, error := some "Login verification failed" }, st)
          else
            match b.getCookies with
            | .error e => .error e
            | .ok cookies =>
              let sv := saveCookies hash b.saveFails st cookies (cfg.email.getD "")
              .ok ({ success := true, session_saved := sv.2 }, sv.1)

/-- Embedding of `_perform_login` with its `except` chain
(`TimeoutException`, `NoSuchElementException`, `WebDriverException`,
`Exception`, in source order); an exception no clause catches would
propagate. -/
def performLoginE (hash : String → String) (cfg : AuthCfg) (st : SessionStore)
    (b : PerformB) : Except PyExc (LoginResult × SessionStore) :=
  match performBodyE hash cfg st b with
  | .ok r => .ok r
  | .error e =>
    if subclassOf e.cls .seleniumTimeoutExc then
      .ok ({ success := false, error := some ("Timeout during login: " ++ e.msg) }, st)
    else if subclassOf e.cls .noSuchElementExc then
      .ok ({ success := false,
             error := some ("Login form element not found: " ++ e.msg) }, st)
    else if subclassOf e.cls .webDriverExc then
      .ok ({ success := false,
             error := some ("WebDriver error during login: " ++ e.msg) }, st)
    else if subclassOf e.cls .exc then
      .ok ({ success := false,
             error := some ("Unexpected error during login: " ++ e.msg) }, st)
    else .error e

/-- Embedding of `SeleniumLoginHandler.login` (lines 160-191): disabled
auth short-circuits to success; missing credentials fail; with session
reuse, a loaded and verified session succeeds without persisting, a loaded
but unverified session is cleared before the fresh login. -/
def seleniumLoginE (hash : String → String) (cfg : AuthCfg) (useSaved : Bool)
    (st : SessionStore) (readFails : Bool) (lb : LoadSessB) (v1 : VerifyB)
    (removeFails : Bool) (pb : PerformB) : Except PyExc (LoginResult × SessionStore) :=
  if !cfg.enabled then .ok ({ success := true }, st)
  else if !truthyOpt cfg.email || !truthyOpt cfg.password then
    .ok ({ success := false,
           error := some "Email and password are required for authentication" }, st)
  else if useSaved && loadSessionStep hash readFails st (cfg.email.getD "") lb then
    if verifyLogin v1 then .ok ({ success := true, session_saved := false }, st)
    else
      performLoginE hash cfg
        (clearSession hash removeFails st (cfg.email.getD "")).1 pb
  else performLoginE hash cfg st pb

end Scraper

namespace Scraper

/-! ## Theorems -/

/-- C1: for every content string, the fetchers' `_is_blocked` check
(`BlockDetector.classify`) returns `Ok` whenever the person-typed
structured-data markers are present, even if every block phrase is also
present; returns `Blocked` when at least one block phrase occurs
(case-insensitively) and the markers are absent; and returns `Ok` when
neither is present. -/
theorem classify_ok_blocked_ok (content : String) :
    (hasPersonLd content = true → classify content = .Ok) ∧
    (hasPersonLd content = false →
      (∃ p ∈ blockedIndicators, strContains (lowerStr content) (lowerStr p) = true) →
      classify content = .Blocked) ∧
    (hasPersonLd content = false →
      (∀ p ∈ blockedIndicators, strContains (lowerStr content) (lowerStr p) = false) →
      classify content = .Ok) := by
  refine ⟨fun h => ?_, fun h hp => ?_, fun h hn => ?_⟩
  · simp [classify, isBlocked, h]
  · obtain ⟨p, hp1, hp2⟩ := hp
    have hB : isBlocked content = true := by
      unfold isBlocked
      rw [h]
      simp only [Bool.false_eq_true, if_false, List.any_eq_true]
      exact ⟨p, hp1, hp2⟩
    simp [classify, hB]
  · have h1 := hn "authwall-join" (by simp [blockedIndicators])
    have h2 := hn "public_profile_contextual-sign-in" (by simp [blockedIndicators])
    have h3 := hn "Join to view" (by simp [blockedIndicators])
    have hB : isBlocked content = false := by
      unfold isBlocked
      rw [h]
      simp [blockedIndicators, h1, h2, h3]
    simp [classify, hB]

/-- Witness for C1 at concrete contents: a page carrying the structured-data
markers and all three block phrases classifies `Ok`; a page with only a block
phrase classifies `Blocked`; a plain page classifies `Ok`. -/
theorem classify_ok_blocked_ok_witness :
    classify ("application/ld+json \"@type\":\"Person\" authwall-join " ++
        "public_profile_contextual-sign-in Join to view") = .Ok ∧
    classify "please Join To View this profile" = .Blocked ∧
    classify "a plain profile page" = .Ok := by
  refine ⟨(classify_ok_blocked_ok _).1 (by decide),
    (classify_ok_blocked_ok _).2.1 (by decide)
      ⟨"Join to view", by decide, by decide⟩,
    (classify_ok_blocked_ok _).2.2 (by decide) (by decide)⟩

/-- C3 counterexample: with the default configuration and `attemptIndex = 7`
(draw `rand = 1/2`, i.e. zero jitter), the returned delay is the cap `60`,
which lies strictly below the claimed lower bound
`base * factor^7 * (1 - jitter) = 128`. -/
theorem backoff_below_claimed_lower_bound :
    backoff defaultRateCfg 7 (1/2) = 60 ∧
    ¬ (defaultRateCfg.request_delay * defaultRateCfg.retry_backoff_factor ^ 7 *
        (1 - defaultRateCfg.retry_jitter) ≤ backoff defaultRateCfg 7 (1/2)) := by
  constructor
  · norm_num [backoff, defaultRateCfg]
  · norm_num [backoff, defaultRateCfg]

/-- C3 amended: for every configuration satisfying the validation constraints,
every `attemptIndex ≥ 1` and every draw `rand ∈ [0,1]` (so the symmetric
jitter factor `2*rand - 1` ranges over `[-1,1]`), the returned delay lies in
`[min(base*factor^i*(1-jitter), maxDelay), min(base*factor^i*(1+jitter), maxDelay)]`:
the claimed bounds hold once the lower endpoint is also clamped at `maxDelay`. -/
theorem backoff_within_clamped_bounds (cfg : RateLimitCfg) (i : ℕ) (rand : ℚ)
    (hv : cfg.valid) (hi : 1 ≤ i) (h0 : 0 ≤ rand) (h1 : rand ≤ 1) :
    min (cfg.request_delay * cfg.retry_backoff_factor ^ i * (1 - cfg.retry_jitter))
        cfg.max_retry_delay ≤ backoff cfg i rand ∧
    backoff cfg i rand ≤
      min (cfg.request_delay * cfg.retry_backoff_factor ^ i * (1 + cfg.retry_jitter))
        cfg.max_retry_delay := by
  obtain ⟨hb, hf, hj0, hj1, hm⟩ := hv
  have hbeq : backoff cfg i rand =
      min (cfg.request_delay * cfg.retry_backoff_factor ^ i +
        cfg.request_delay * cfg.retry_backoff_factor ^ i * cfg.retry_jitter *
          (2 * rand - 1)) cfg.max_retry_delay := rfl
  rw [hbeq]
  have hD : 0 ≤ cfg.request_delay * cfg.retry_backoff_factor ^ i :=
    mul_nonneg hb (pow_nonneg (le_trans zero_le_one hf) i)
  set D := cfg.request_delay * cfg.retry_backoff_factor ^ i with hDdef
  have hDj : 0 ≤ D * cfg.retry_jitter := mul_nonneg hD hj0
  have hlow : D * (1 - cfg.retry_jitter) ≤ D + D * cfg.retry_jitter * (2 * rand - 1) := by
    nlinarith [mul_nonneg hDj h0]
  have hhigh : D + D * cfg.retry_jitter * (2 * rand - 1) ≤ D * (1 + cfg.retry_jitter) := by
    nlinarith [mul_nonneg hDj (sub_nonneg.mpr h1)]
  exact ⟨min_le_min hlow le_rfl, min_le_min hhigh le_rfl⟩

/-! ### Parser constructor lemmas -/

/-- On a string field, `__post_init__` trimming never raises. -/
theorem stripIfTruthy_str (s : String) : stripIfTruthy (.str s) = .ok (trimStr s) := by
  unfold stripIfTruthy
  by_cases h : s = ""
  · subst h; rfl
  · rw [if_pos (by simp [Json.truthy, h])]

/-- On an optional string field, `__post_init__` trimming never raises, and
leaves a falsy `""` untouched. -/
theorem stripOptField_mapStr (d : Option String) :
    stripOptField (d.map Json.str) =
      .ok (d.map fun s => if s = "" then s else trimStr s) := by
  cases d with
  | none => rfl
  | some s =>
    unfold stripOptField
    by_cases h : s = ""
    · subst h; rfl
    · simp [Json.truthy, h]

/-- C9 counterexample: constructing an `Experience` with empty title and
empty company succeeds (returning the record with both fields empty), so
construction does not fail on empty required fields. -/
theorem experience_empty_fields_accepted :
    Experience.make (.str "") (.str "") none none (.str "") =
      .ok { title := "", company := "", start_date := none, end_date := none,
            description := "" } := rfl

/-- C9 amended: `Experience` construction trims every text field (title,
company, description, and each present date, a falsy `""` date being kept
as-is) and always succeeds on string inputs; emptiness of title or company
is not rejected. -/
theorem experience_make_trims (t c d : String) (sd ed : Option String) :
    Experience.make (.str t) (.str c) (sd.map Json.str) (ed.map Json.str) (.str d) =
      .ok { title := trimStr t, company := trimStr c,
            start_date := sd.map fun s => if s = "" then s else trimStr s,
            end_date := ed.map fun s => if s = "" then s else trimStr s,
            description := trimStr d } := by
  simp [Experience.make, stripIfTruthy_str, stripOptField_mapStr, Bind.bind, Except.bind]

/-- C10: blank content (empty or whitespace-only) makes `parse_html` raise
`ValueError` regardless of the document contents, so neither extraction
tier is consulted. -/
theorem parseHtml_blank_raises (html : String) (soup : Soup) (url : String)
    (h : trimStr html = "") :
    parseHtml html soup url = .error ⟨.valueErrorExc, "Empty HTML content provided"⟩ := by
  unfold parseHtml
  rw [if_pos (by simp [h])]

/-- A document with no selections at all, used to witness blank-input behaviour. -/
def emptySoup : Soup :=
  { ldScripts := [], findAny := false, selectOne := fun _ => none,
    selectAll := fun _ => [] }

/-- Witness for C10 on a whitespace-only content string. -/
theorem parseHtml_blank_raises_witness :
    parseHtml "  \n " emptySoup "https://example.com/in" =
      .error ⟨.valueErrorExc, "Empty HTML content provided"⟩ :=
  parseHtml_blank_raises "  \n " emptySoup "https://example.com/in" (by decide)

/-- C2: whenever tier-1 extraction finds a person record that maps
successfully, `parse_html` returns exactly the tier-1 record — the selector
environment (tier-2 markup) is arbitrary and never consulted for the result. -/
theorem parseHtml_prefers_tier1 (html : String) (soup : Soup) (url : String)
    (kvs : List (String × Json)) (rec : ProfileData)
    (hhtml : trimStr html ≠ "") (hfind : soup.findAny = true)
    (hld : extractJsonLd soup.ldScripts = some kvs)
    (hok : parseFromJsonLd kvs url = .ok rec) :
    parseHtml html soup url = .ok rec := by
  have hne : html ≠ "" := by
    intro h
    apply hhtml
    rw [h]
    decide
  unfold parseHtml
  rw [if_neg (by simp [hne, hhtml]), if_neg (by simp [hfind])]
  simp only [hld, hok]

/-- Concrete person JSON-LD payload used in the C2 witness. -/
def janeKvs : List (String × Json) :=
  [("@type", .str "Person"), ("name", .str "Jane Doe"),
   ("jobTitle", .str "Engineer"),
   ("worksFor", .arr [.obj [("name", .str "Acme Corp")]])]

/-- Tier-2 markup for the C2 witness, deliberately carrying different values
(name heading "Other Name", one experience item "Boss" at "Evil Corp"). -/
def conflictingSoup : Soup :=
  { ldScripts := [some (.ok (.obj janeKvs))], findAny := true,
    selectOne := fun sel =>
      if sel == "h1" then some (.mk true "Other Name" (fun _ => none)) else none,
    selectAll := fun sel =>
      if sel == ".experience-item" then
        [.mk true "item"
          (fun s =>
            if s == ".experience-title, h3" then
              some (.mk true "Boss" (fun _ => none))
            else if s == ".experience-company" then
              some (.mk true "Evil Corp" (fun _ => none))
            else none)]
      else [] }

/-- Witness for C2: on a page with both the Jane Doe structured-data block
and conflicting selector markup, the parse returns the structured-data
values. -/
theorem parseHtml_prefers_tier1_witness :
    parseHtml "<html>profile</html>" conflictingSoup "https://example.com/jane" =
      .ok { name := "Jane Doe", headline := "Engineer", location := "", about := "",
            experiences := [{ title := "Engineer", company := "Acme Corp",
                              start_date := none, end_date := none, description := "" }],
            url := "https://example.com/jane" } :=
  parseHtml_prefers_tier1 "<html>profile</html>" conflictingSoup
    "https://example.com/jane" janeKvs _ (by decide) rfl rfl rfl

/-- Helper: when every name-selector hit has empty text, the scan fails. -/
theorem firstNameHit_none (soup : Soup) (sels : List String)
    (h : ∀ sel ∈ sels, ∀ el, soup.selectOne sel = some el → el.text = "") :
    firstNameHit soup sels = none := by
  induction sels with
  | nil => rfl
  | cons s rest ih =>
    unfold firstNameHit
    cases hsel : soup.selectOne s with
    | none => exact ih (fun sel hm => h sel (by simp [hm]))
    | some el =>
      have ht : el.text = "" := h s (by simp) el hsel
      simp only [ht, bne_self_eq_false, Bool.and_false, Bool.false_eq_true, if_false]
      exact ih (fun sel hm => h sel (by simp [hm]))

/-- C6: with no person-typed structured data, (1) if no name selector hit
carries non-empty text the parse raises `ValueError`, and (2) if the name
extractor finds a (trim-invariant, as `get_text(strip=True)` guarantees)
non-empty name and no experience-item markup exists, the parse succeeds
with that name, an empty experience list, and the independently extracted
optional fields. -/
theorem tier2_name_required_optionals_default :
    (∀ (html : String) (soup : Soup) (url : String),
      extractJsonLd soup.ldScripts = none →
      (∀ sel ∈ nameSelectors, ∀ el, soup.selectOne sel = some el → el.text = "") →
      ∃ msg, parseHtml html soup url = .error ⟨.valueErrorExc, msg⟩) ∧
    (∀ (html : String) (soup : Soup) (url : String) (n : String),
      trimStr html ≠ "" → soup.findAny = true →
      extractJsonLd soup.ldScripts = none →
      extractName soup = .ok n → trimStr n = n → n ≠ "" →
      soup.selectAll ".experience-item" = [] →
      parseHtml html soup url = .ok
        { name := n, headline := trimStr (extractHeadline soup),
          location := trimStr (extractLocation soup),
          about := trimStr (extractAbout soup),
          experiences := [], url := trimStr url }) := by
  constructor
  · intro html soup url hld hname
    have hn : extractName soup = .error ⟨.valueErrorExc, "Profile name not found in HTML"⟩ := by
      unfold extractName
      rw [firstNameHit_none soup nameSelectors hname]
    by_cases hblank : (html == "" || trimStr html == "") = true
    · exact ⟨"Empty HTML content provided", by unfold parseHtml; rw [if_pos hblank]⟩
    · by_cases hfind : soup.findAny = true
      · refine ⟨"Profile name not found in HTML", ?_⟩
        unfold parseHtml
        rw [if_neg (by simp [hblank]), if_neg (by simp [hfind]), hld]
        simp [tier2Parse, hn, Bind.bind, Except.bind]
      · refine ⟨"Invalid HTML structure", ?_⟩
        unfold parseHtml
        rw [if_neg (by simp [hblank]), if_pos (by simp [hfind])]
  · intro html soup url n hhtml hfind hld hn htrim hne hexp
    have hbne : html ≠ "" := by
      intro h
      apply hhtml
      rw [h]
      decide
    unfold parseHtml
    rw [if_neg (by simp [hbne, hhtml]), if_neg (by simp [hfind]), hld]
    have hexps : extractExperiences soup = [] := by
      unfold extractExperiences
      rw [hexp]
      rfl
    simp only [tier2Parse, hn, hexps, ProfileData.make, stripIfTruthy_str,
      Bind.bind, Except.bind, htrim]
    rw [if_neg hne]

/-- Documents for the C6 witness: one with nothing extractable, one with a
name heading, no experience markup and a headline element. -/
def bareSoup : Soup :=
  { ldScripts := [], findAny := true, selectOne := fun _ => none,
    selectAll := fun _ => [] }

/-- Witness document whose only hits are a name heading and a headline. -/
def namedSoup : Soup :=
  { ldScripts := [], findAny := true,
    selectOne := fun sel =>
      if sel == "h1" then some (.mk true "Bob Roberts" (fun _ => none))
      else if sel == ".profile-headline" then some (.mk true "Builder" (fun _ => none))
      else none,
    selectAll := fun _ => [] }

/-- Witness for C6: the bare document fails with `ValueError`; the named
document parses to Bob Roberts with empty experiences and defaulted
optional fields. -/
theorem tier2_name_required_optionals_default_witness :
    (∃ msg, parseHtml "<html>x</html>" bareSoup "u" = .error ⟨.valueErrorExc, msg⟩) ∧
    parseHtml "<html>x</html>" namedSoup "u" = .ok
      { name := "Bob Roberts", headline := trimStr (extractHeadline namedSoup),
        location := trimStr (extractLocation namedSoup),
        about := trimStr (extractAbout namedSoup),
        experiences := [], url := trimStr "u" } :=
  ⟨tier2_name_required_optionals_default.1 "<html>x</html>" bareSoup "u" rfl
      (by intro sel hs el h; simp [bareSoup] at h),
   tier2_name_required_optionals_default.2 "<html>x</html>" namedSoup "u" "Bob Roberts"
      (by decide) rfl rfl rfl (by decide) (by decide) rfl⟩

/-! ### Fetch and login theorems -/

/-- Every modelled exception class derives `Exception`, so a final
`except Exception` clause catches it. -/
theorem subclassOf_exc (c : PyClass) : subclassOf c .exc = true := by
  cases c <;> rfl

/-- C4: a `WebDriverException` that is not a `TimeoutException` (Selenium),
and any non-timeout exception (Playwright), follows the timeout retry
policy: the loop proceeds to the next attempt while attempts remain and
terminates with `error_type="network"` exactly when none remain; a driver
failing that way on every attempt drives `fetch` to the network outcome
with all attempts consumed. -/
theorem network_error_retry_policy :
    (∀ (url : String) (driver : ℕ → Except PyExc String) (maxRetries retry fuel : ℕ)
        (e : PyExc), driver retry = .error e →
        subclassOf e.cls .webDriverExc = true →
        subclassOf e.cls .seleniumTimeoutExc = false →
        (retry < maxRetries →
          seleniumFetchLoop url driver maxRetries retry (fuel + 1) =
            seleniumFetchLoop url driver maxRetries (retry + 1) fuel) ∧
        (maxRetries ≤ retry →
          seleniumFetchLoop url driver maxRetries retry (fuel + 1) =
            .ok { url := url, success := false,
                  error := some ("WebDriver error: " ++ e.msg),
                  error_type := some "network", retry_count := retry })) ∧
    (∀ (url : String) (driver : ℕ → Except PyExc (String × Option Int))
        (maxRetries retry fuel : ℕ) (e : PyExc), driver retry = .error e →
        subclassOf e.cls .playwrightTimeoutExc = false →
        (retry < maxRetries →
          playwrightFetchLoop url driver maxRetries retry (fuel + 1) =
            playwrightFetchLoop url driver maxRetries (retry + 1) fuel) ∧
        (maxRetries ≤ retry →
          playwrightFetchLoop url driver maxRetries retry (fuel + 1) =
            .ok { url := url, success := false, error := some ("Error: " ++ e.msg),
                  error_type := some "network", retry_count := retry })) ∧
    (∀ (url : String) (driver : ℕ → Except PyExc String) (maxRetries : ℕ) (e : PyExc),
        (∀ i, driver i = .error e) →
        subclassOf e.cls .webDriverExc = true →
        subclassOf e.cls .seleniumTimeoutExc = false →
        seleniumFetch true none url driver maxRetries =
          .ok { url := url, success := false,
                error := some ("WebDriver error: " ++ e.msg),
                error_type := some "network", retry_count := maxRetries }) := by
  have step : ∀ (url : String) (driver : ℕ → Except PyExc String)
      (maxRetries retry fuel : ℕ) (e : PyExc), driver retry = .error e →
      subclassOf e.cls .webDriverExc = true →
      subclassOf e.cls .seleniumTimeoutExc = false →
      (retry < maxRetries →
        seleniumFetchLoop url driver maxRetries retry (fuel + 1) =
          seleniumFetchLoop url driver maxRetries (retry + 1) fuel) ∧
      (maxRetries ≤ retry →
        seleniumFetchLoop url driver maxRetries retry (fuel + 1) =
          .ok { url := url, success := false,
                error := some ("WebDriver error: " ++ e.msg),
                error_type := some "network", retry_count := retry }) := by
    intro url driver maxR retry fuel e he hw hnt
    constructor
    · intro hlt
      simp [seleniumFetchLoop, he, hw, hnt, Nat.not_le.mpr hlt]
    · intro hge
      simp [seleniumFetchLoop, he, hw, hnt, hge]
  refine ⟨step, ?_, ?_⟩
  · intro url driver maxR retry fuel e he hnt
    constructor
    · intro hlt
      simp [playwrightFetchLoop, he, hnt, subclassOf_exc, Nat.not_le.mpr hlt]
    · intro hge
      simp [playwrightFetchLoop, he, hnt, subclassOf_exc, hge]
  · intro url driver maxR e hall hw hnt
    have aux : ∀ fuel retry, retry + (fuel + 1) = maxR + 1 →
        seleniumFetchLoop url driver maxR retry (fuel + 1) =
          .ok { url := url, success := false,
                error := some ("WebDriver error: " ++ e.msg),
                error_type := some "network", retry_count := maxR } := by
      intro fuel
      induction fuel with
      | zero =>
        intro retry h
        have hr : retry = maxR := by omega
        subst hr
        simp [seleniumFetchLoop, hall retry, hw, hnt]
      | succ n ih =>
        intro retry h
        have hlt : retry < maxR := by omega
        rw [(step url driver maxR retry (n + 1) e (hall retry) hw hnt).1 hlt]
        exact ih (retry + 1) (by omega)
    simpa [seleniumFetch] using aux maxR 0 (by omega)

/-- Witness for C4: with one retry allowed and the driver raising a
`WebDriverException` on both attempts, the first error moves the loop to
attempt 1 and the second terminates with the network outcome; the loop and
`fetch` agree on the all-failures result. -/
theorem network_error_retry_policy_witness :
    (seleniumFetchLoop "https://example.com/p"
        (fun _ => .error ⟨.webDriverExc, "conn reset"⟩) 1 0 2 =
      seleniumFetchLoop "https://example.com/p"
        (fun _ => .error ⟨.webDriverExc, "conn reset"⟩) 1 1 1) ∧
    (seleniumFetchLoop "https://example.com/p"
        (fun _ => .error ⟨.webDriverExc, "conn reset"⟩) 1 1 1 =
      .ok { url := "https://example.com/p", success := false,
            error := some ("WebDriver error: " ++ "conn reset"),
            error_type := some "network", retry_count := 1 }) ∧
    (playwrightFetchLoop "https://example.com/p"
        (fun _ => .error ⟨.exc, "conn reset"⟩) 1 1 1 =
      .ok { url := "https://example.com/p", success := false,
            error := some ("Error: " ++ "conn reset"),
            error_type := some "network", retry_count := 1 }) ∧
    (seleniumFetch true none "https://example.com/p"
        (fun _ => .error ⟨.webDriverExc, "conn reset"⟩) 1 =
      .ok { url := "https://example.com/p", success := false,
            error := some ("WebDriver error: " ++ "conn reset"),
            error_type := some "network", retry_count := 1 }) :=
  ⟨(network_error_retry_policy.1 "https://example.com/p" _ 1 0 1
      ⟨.webDriverExc, "conn reset"⟩ rfl (by decide) (by decide)).1 (by decide),
   (network_error_retry_policy.1 "https://example.com/p" _ 1 1 0
      ⟨.webDriverExc, "conn reset"⟩ rfl (by decide) (by decide)).2 (by decide),
   (network_error_retry_policy.2.1 "https://example.com/p" _ 1 1 0
      ⟨.exc, "conn reset"⟩ rfl (by decide)).2 (by decide),
   network_error_retry_policy.2.2 "https://example.com/p" _ 1
      ⟨.webDriverExc, "conn reset"⟩ (fun _ => rfl) (by decide) (by decide)⟩

/-- Boolean success test on a fetch/login computation: `true` exactly when
no exception escapes. -/
def isOkE {α : Type} : Except PyExc α → Bool
  | .ok _ => true
  | .error _ => false

/-- The Selenium retry loop never lets an exception escape. -/
theorem seleniumFetchLoop_never_raises (url : String)
    (driver : ℕ → Except PyExc String) (maxR : ℕ) :
    ∀ fuel retry, ∃ r, seleniumFetchLoop url driver maxR retry fuel = .ok r := by
  intro fuel
  induction fuel with
  | zero => intro retry; exact ⟨_, rfl⟩
  | succ n ih =>
    intro retry
    unfold seleniumFetchLoop
    cases driver retry with
    | ok html =>
      dsimp only
      split
      · split
        · exact ih (retry + 1)
        · exact ⟨_, rfl⟩
      · exact ⟨_, rfl⟩
    | error e =>
      dsimp only
      split
      · split
        · exact ⟨_, rfl⟩
        · exact ih (retry + 1)
      · split
        · split
          · exact ⟨_, rfl⟩
          · exact ih (retry + 1)
        · split
          · exact ⟨_, rfl⟩
          · rename_i hexc
            exact absurd (subclassOf_exc e.cls) (by simp_all)

/-- The fresh-login path never lets an exception escape: its `except`
chain ends in `except Exception`. -/
theorem performLoginE_never_raises (hash : String → String) (cfg : AuthCfg)
    (st : SessionStore) (b : PerformB) :
    ∃ r, performLoginE hash cfg st b = .ok r := by
  unfold performLoginE
  cases performBodyE hash cfg st b with
  | ok r => exact ⟨r, rfl⟩
  | error e =>
    dsimp only
    split
    · exact ⟨_, rfl⟩
    split
    · exact ⟨_, rfl⟩
    split
    · exact ⟨_, rfl⟩
    split
    · exact ⟨_, rfl⟩
    · rename_i hexc
      exact absurd (subclassOf_exc e.cls) hexc

/-- C5 counterexample: when `fetch` has to start the driver first and
startup raises (`webdriver.Chrome(...)` fails before the `try` block), the
exception crosses the public boundary instead of becoming a `FetchResult`. -/
theorem fetch_raises_on_startup_failure :
    seleniumFetch false (some ⟨.webDriverExc, "session not created"⟩)
        "https://example.com/p" (fun _ => .ok "<html>x</html>") 3 =
      .error ⟨.webDriverExc, "session not created"⟩ := rfl

/-- C5 amended: `login` never raises for any driver behaviour, and `fetch`
never raises once past driver startup (driver already started, or the
implicit startup succeeding); only a startup failure can escape. -/
theorem fetch_login_never_raise :
    (∀ (driverStarted : Bool) (startOutcome : Option PyExc) (url : String)
        (driver : ℕ → Except PyExc String) (maxRetries : ℕ),
      driverStarted = true ∨ startOutcome = none →
      isOkE (seleniumFetch driverStarted startOutcome url driver maxRetries) = true) ∧
    (∀ (hash : String → String) (cfg : AuthCfg) (useSaved : Bool) (st : SessionStore)
        (readFails : Bool) (lb : LoadSessB) (v1 : VerifyB) (removeFails : Bool)
        (pb : PerformB),
      isOkE (seleniumLoginE hash cfg useSaved st readFails lb v1 removeFails pb) = true) := by
  constructor
  · intro started so url driver maxR h
    have hloop := seleniumFetchLoop_never_raises url driver maxR (maxR + 1) 0
    obtain ⟨r, hr⟩ := hloop
    rcases h with h | h
    · subst h
      simp [seleniumFetch, hr, isOkE]
    · subst h
      unfold seleniumFetch
      cases started <;> simp [hr, isOkE]
  · intro hash cfg useSaved st readFails lb v1 removeFails pb
    unfold seleniumLoginE
    split
    · rfl
    split
    · rfl
    split
    · split
      · rfl
      · obtain ⟨r, hr⟩ := performLoginE_never_raises hash cfg
          (clearSession hash removeFails st (cfg.email.getD "")).1 pb
        simp [hr, isOkE]
    · obtain ⟨r, hr⟩ := performLoginE_never_raises hash cfg st pb
      simp [hr, isOkE]

/-- Witness for the amended C5: a started driver failing every attempt
still yields a result value, and a login whose fresh-login steps all raise
yields a result value. -/
theorem fetch_login_never_raise_witness :
    isOkE (seleniumFetch true (some ⟨.webDriverExc, "ignored"⟩) "https://example.com/p"
      (fun _ => .error ⟨.webDriverExc, "conn reset"⟩) 2) = true ∧
    isOkE (seleniumLoginE (fun _ => "h")
      { enabled := true, email := some "a@b.c", password := some "pw" } true []
      false ⟨some ⟨.webDriverExc, "nav failed"⟩⟩
      ⟨none, .ok "https://www.linkedin.com/feed/", none⟩ false
      { navLogin := some ⟨.webDriverExc, "nav failed"⟩, formWait := none,
        credSteps := none, currentUrl := .error ⟨.webDriverExc, "gone"⟩,
        inlineErr := .error ⟨.noSuchElementExc, "absent"⟩,
        verify2 := ⟨none, .ok "", none⟩, getCookies := .ok [],
        saveFails := true }) = true :=
  ⟨fetch_login_never_raise.1 true (some ⟨.webDriverExc, "ignored"⟩)
      "https://example.com/p" (fun _ => .error ⟨.webDriverExc, "conn reset"⟩) 2
      (Or.inl rfl),
   fetch_login_never_raise.2 (fun _ => "h")
      { enabled := true, email := some "a@b.c", password := some "pw" } true []
      false ⟨some ⟨.webDriverExc, "nav failed"⟩⟩
      ⟨none, .ok "https://www.linkedin.com/feed/", none⟩ false
      { navLogin := some ⟨.webDriverExc, "nav failed"⟩, formWait := none,
        credSteps := none, currentUrl := .error ⟨.webDriverExc, "gone"⟩,
        inlineErr := .error ⟨.noSuchElementExc, "absent"⟩,
        verify2 := ⟨none, .ok "", none⟩, getCookies := .ok [],
        saveFails := true }⟩

/-- Looking a key up after filtering it out always misses. -/
theorem lookup_filter_self (k : String) (st : SessionStore) :
    (st.filter (fun p => !(p.1 == k))).lookup k = none := by
  induction st with
  | nil => rfl
  | cons p rest ih =>
    by_cases h : p.1 = k
    · have h1 : (fun q : String × List Cookie => !(q.1 == k)) p = false := by simp [h]
      simp [List.filter_cons, h1, ih]
    · have h1 : (fun q : String × List Cookie => !(q.1 == k)) p = true := by simp [h]
      have h2 : (k == p.1) = false := by simp [Ne.symm h]
      simp [List.filter_cons, h1, List.lookup, h2, ih]

/-- C8: the session store satisfies the claimed algebra: `save` then `load`
for the same identity returns the saved cookie set, `clear` then `load`
returns absent (whatever the later read outcome), and `load` on a store
where nothing was ever saved returns absent. -/
theorem session_store_algebra (hash : String → String) (st : SessionStore)
    (email : String) (cookies : List Cookie) :
    loadCookies hash false ((saveCookies hash false st cookies email).1) email =
      some cookies ∧
    (∀ readFails, loadCookies hash readFails
      ((clearSession hash false st email).1) email = none) ∧
    (∀ readFails, loadCookies hash readFails ([] : SessionStore) email = none) := by
  refine ⟨?_, ?_, ?_⟩
  · simp [loadCookies, saveCookies, List.lookup]
  · intro readFails
    cases readFails with
    | true => rfl
    | false =>
      simp only [loadCookies, clearSession, if_false, Bool.false_eq_true]
      exact lookup_filter_self _ _
  · intro readFails
    cases readFails <;> rfl

/-- C7: with session reuse enabled, a stored non-empty session that loads
but fails verification is cleared before the fresh login is attempted in
the same call, and a subsequent load for that identity returns absent. -/
theorem stale_session_cleared_then_fresh (hash : String → String) (cfg : AuthCfg)
    (st : SessionStore) (readFails : Bool) (lb : LoadSessB) (v1 : VerifyB)
    (pb : PerformB) (em : String) (cs : List Cookie)
    (he : cfg.enabled = true) (hem : cfg.email = some em) (hemne : em ≠ "")
    (hpw : truthyOpt cfg.password = true)
    (hload : loadCookies hash readFails st em = some cs) (hcs : cs ≠ [])
    (hnav : lb.navMain = none) (hver : verifyLogin v1 = false) :
    seleniumLoginE hash cfg true st readFails lb v1 false pb =
      performLoginE hash cfg (clearSession hash false st em).1 pb ∧
    loadCookies hash false (clearSession hash false st em).1 em = none := by
  constructor
  · have hstep : loadSessionStep hash readFails st em lb = true := by
      unfold loadSessionStep
      rw [hload]
      cases cs with
      | nil => exact absurd rfl hcs
      | cons c rest => rw [hnav]
    have hem' : truthyOpt cfg.email = true := by
      rw [hem]
      simp [truthyOpt, hemne]
    unfold seleniumLoginE
    rw [if_neg (by simp [he]),
        if_neg (by simp [hem', hpw]),
        if_pos (by simp [hem, Option.getD, hstep])]
    rw [if_neg (by simp [hver]), hem]
    rfl
  · exact (session_store_algebra hash st em cs).2.1 false

/-- Stored session and driver behaviours for the C7 witness: one stored
cookie, a load that navigates fine, a verification that lands on the login
wall, and a fresh login that hits the security checkpoint. -/
def staleStore : SessionStore :=
  [("session_h.json", [{ name := "li_at", value := "tok" }])]

/-- Fresh-login behaviour hitting the checkpoint, for the C7 witness. -/
def checkpointPerform : PerformB :=
  { navLogin := none, formWait := none, credSteps := none,
    currentUrl := .ok "https://www.linkedin.com/checkpoint/challenge/",
    inlineErr := .error ⟨.noSuchElementExc, "absent"⟩,
    verify2 := ⟨none, .ok "", none⟩, getCookies := .ok [], saveFails := false }

/-- Witness for C7 on the concrete stale-session scenario. -/
theorem stale_session_cleared_then_fresh_witness :
    seleniumLoginE (fun _ => "h")
        { enabled := true, email := some "a@b.c", password := some "pw" } true
        staleStore false ⟨none⟩
        ⟨none, .ok "https://www.linkedin.com/login", none⟩ false checkpointPerform =
      performLoginE (fun _ => "h")
        { enabled := true, email := some "a@b.c", password := some "pw" }
        (clearSession (fun _ => "h") false staleStore "a@b.c").1 checkpointPerform ∧
    loadCookies (fun _ => "h") false
      (clearSession (fun _ => "h") false staleStore "a@b.c").1 "a@b.c" = none :=
  stale_session_cleared_then_fresh (fun _ => "h")
    { enabled := true, email := some "a@b.c", password := some "pw" }
    staleStore false ⟨none⟩ ⟨none, .ok "https://www.linkedin.com/login", none⟩
    checkpointPerform "a@b.c" [{ name := "li_at", value := "tok" }]
    rfl rfl (by decide) rfl rfl (by decide) rfl (by decide)

/-- Witness for the amended C3 at the default configuration, `attemptIndex = 1`,
draw `rand = 1`: the delay `6` lies within `[min(2,60), min(6,60)] = [2, 6]`. -/
theorem backoff_within_clamped_bounds_witness :
    min (defaultRateCfg.request_delay * defaultRateCfg.retry_backoff_factor ^ 1 *
        (1 - defaultRateCfg.retry_jitter)) defaultRateCfg.max_retry_delay ≤
      backoff defaultRateCfg 1 1 ∧
    backoff defaultRateCfg 1 1 ≤
      min (defaultRateCfg.request_delay * defaultRateCfg.retry_backoff_factor ^ 1 *
        (1 + defaultRateCfg.retry_jitter)) defaultRateCfg.max_retry_delay :=
  backoff_within_clamped_bounds defaultRateCfg 1 1
    ⟨by norm_num [defaultRateCfg], by norm_num [defaultRateCfg],
     by norm_num [defaultRateCfg], by norm_num [defaultRateCfg],
     by norm_num [defaultRateCfg]⟩
    le_rfl (by norm_num) le_rfl

end Scraper
